import Mathlib

/-!
Verification of the retrieval/caching layer of `greenwave/resources.py`.

The Python source is shallowly embedded: pure helpers become Lean functions,
the stateful `ResultsRetriever` becomes explicit state passing over an
`RState` record, HTTP/RPC upstreams become explicit function parameters, and
Python exceptions become `Except` values.  Python strings are Lean `String`s;
the string primitives the source relies on (`str.split`, `str.rsplit`,
`urllib.parse.urlparse`, `re.sub(r'\.git$', ...)`, lexicographic `<`) are
modelled by structurally recursive functions over `List Char` so that every
definition evaluates by kernel reduction.
-/

set_option autoImplicit false
set_option linter.unusedVariables false

deriving instance DecidableEq for Except

/-- Splits a character list on a separator character.  Models Python
`str.split(sep)` for a one-character separator: the result is never empty and
`"".split(sep) == ['']`. -/
def splitOnChar (sep : Char) : List Char → List (List Char)
  | [] => [[]]
  | c :: cs =>
    if c = sep then [] :: splitOnChar sep cs
    else
      match splitOnChar sep cs with
      | [] => [[c]]
      | seg :: segs => (c :: seg) :: segs

/-- Joins segments with a separator character, inverse of `splitOnChar`.
Models Python `sep.join(segments)`. -/
def joinChar (sep : Char) : List (List Char) → List Char
  | [] => []
  | [seg] => seg
  | seg :: segs => seg ++ sep :: joinChar sep segs

/-- Breaks a character list at the first occurrence of `sep`: returns the part
before and the part after, or `none` when `sep` does not occur.  Models the
Python idiom `if sep in s: a, b = s.split(sep, 1)`. -/
def breakOn (sep : Char) : List Char → Option (List Char × List Char)
  | [] => none
  | c :: cs =>
    if c = sep then some ([], cs)
    else
      match breakOn sep cs with
      | some (a, b) => some (c :: a, b)
      | none => none

/-- Lexicographic strict comparison by code point.  Models Python `str < str`
(Python compares strings by Unicode code points). -/
def charsLt : List Char → List Char → Bool
  | [], [] => false
  | [], _ :: _ => true
  | _ :: _, [] => false
  | a :: as, b :: bs =>
    if a.toNat < b.toNat then true
    else if b.toNat < a.toNat then false
    else charsLt as bs

/-- Python `a < b` on strings. -/
def pyStrLt (a b : String) : Bool :=
  charsLt a.toList b.toList

/-- First value bound to `key`, scanning left to right.  Models both
`dict.get(key)` on the external cache and the `key in dict` test: the caches
and filter dictionaries of the source are embedded as association lists in
which the most recent binding is the leftmost one. -/
def cacheGet {κ ν : Type} [BEq κ] (l : List (κ × ν)) (key : κ) : Option ν :=
  match l with
  | [] => none
  | kv :: rest => if kv.1 == key then some kv.2 else cacheGet rest key

/-- Python characters allowed inside a URL scheme (`urllib.parse.scheme_chars`). -/
def isSchemeChar (c : Char) : Bool :=
  c.isAlphanum || c == '+' || c == '-' || c == '.'

/-- Scheme part of `urllib.parse.urlsplit`: if the text before the first `:`
is a nonempty run of scheme characters starting with a letter, it is the
scheme and is removed; otherwise the input is untouched. -/
def splitScheme (l : List Char) : List Char × List Char :=
  match breakOn ':' l with
  | some (pre, rest) =>
    if !pre.isEmpty && (pre.headD 'a').isAlpha && pre.all isSchemeChar then (pre, rest)
    else ([], l)
  | none => ([], l)

/-- Netloc part of `urllib.parse.urlsplit`: after a leading `//`, the netloc
extends to the first `/`, `?` or `#`. -/
def splitNetloc (l : List Char) : List Char × List Char :=
  match l with
  | '/' :: '/' :: rest =>
    (rest.takeWhile (fun c => !(c = '/' || c = '?' || c = '#')),
     rest.dropWhile (fun c => !(c = '/' || c = '?' || c = '#')))
  | _ => ([], l)

/-- Params part of `urllib.parse.urlparse` (`_splitparams`): parameters after
the first `;` of the last path segment are split off the path. -/
def splitParams (l : List Char) : List Char × List Char :=
  let segs := splitOnChar '/' l
  match breakOn ';' (segs.getLastD []) with
  | some (before, after) => (joinChar '/' (segs.dropLast ++ [before]), after)
  | none => (l, [])

/-- Result record of `urllib.parse.urlparse`. -/
structure UrlParts where
  scheme : String
  netloc : String
  path : String
  params : String
  query : String
  fragment : String
deriving DecidableEq

/-- Models Python `urllib.parse.urlparse` (scheme, netloc, fragment, query and
params splitting, in the order CPython performs them).  The source uses only
the `path` and `fragment` fields. -/
def urlparse (s : String) : UrlParts :=
  let (scheme, r1) := splitScheme s.toList
  let (netloc, r2) := splitNetloc r1
  let (r3, fragment) :=
    match breakOn '#' r2 with
    | some (a, b) => (a, b)
    | none => (r2, [])
  let (pathq, query) :=
    match breakOn '?' r3 with
    | some (a, b) => (a, b)
    | none => (r3, [])
  let (path, params) := splitParams pathq
  { scheme := String.mk scheme, netloc := String.mk netloc, path := String.mk path,
    params := String.mk params, query := String.mk query, fragment := String.mk fragment }

/-- Models Python `path.rsplit('/', 2)`: at most two splits, taken from the
right. -/
def pyRsplit2 (sep : Char) (l : List Char) : List (List Char) :=
  let parts := splitOnChar sep l
  if parts.length ≤ 3 then parts
  else joinChar sep (parts.take (parts.length - 2)) :: parts.drop (parts.length - 2)

/-- Models `re.sub(r'\.git$', '', s)`: strips one trailing literal `.git`
(case-sensitive). -/
def stripGitSuffix (l : List Char) : List Char :=
  if 4 ≤ l.length ∧ l.drop (l.length - 4) = ['.', 'g', 'i', 't'] then l.take (l.length - 4)
  else l

/-- Error outcomes of `retrieve_scm_from_koji_build`: `noSource` embeds
`NoSourceException`, `badGateway` embeds `werkzeug`'s `BadGateway`. -/
inductive ScmError where
  | noSource
  | badGateway
deriving DecidableEq

/-- Embeds `retrieve_scm_from_koji_build(nvr, source, koji_url)`
(resources.py lines 190-214).  `source` is `Option String` because the Koji
build record may carry no source at all (`None` in Python); Python's
`if not source` treats `None` and `""` alike. -/
def retrieve_scm_from_koji_build (nvr : String) (source : Option String)
    (koji_url : String) : Except ScmError (String × String × String) :=
  match source with
  | none => .error .noSource
  | some s =>
    if s = "" then .error .noSource
    else
      let url := urlparse s
      let path_components := pyRsplit2 '/' url.path.toList
      let nspace :=
        if path_components.length < 3 then ""
        else String.mk (path_components.getD (path_components.length - 2) [])
      let rev := url.fragment
      if rev = "" then .error .badGateway
      else
        let pkg_name := (splitOnChar '/' url.path.toList).getLastD []
        .ok (nspace, String.mk (stripGitSuffix pkg_name), rev)

/-- A Python value as returned by the XML-RPC proxy, as far as
`retrieve_koji_build_target` inspects it: it only distinguishes lists,
strings, and everything else. -/
inductive PyVal where
  | pString (s : String)
  | pInt (n : Int)
  | pList (xs : List PyVal)
  | pNone

/-- Embeds `retrieve_koji_build_target` (resources.py lines 148-157), with the
task-request structure returned by `proxy.getTaskRequest(nvr)` passed in
explicitly.  The function is total: every non-conforming shape yields `none`
(Python `None`), never an exception. -/
def retrieve_koji_build_target (task_request : PyVal) : Option String :=
  match task_request with
  | .pList xs =>
    if 1 < xs.length then
      match xs.getD 1 .pNone with
      | .pString target => some target
      | _ => none
    else none
  | _ => none

/-- The HTTP environment seen by `retrieve_yaml_remote_rule`: the status the
server answers to the HEAD probe, and the status/body it answers to a GET. -/
structure RemoteEnv where
  head_status : Nat
  get_status : Nat
  get_body : String
deriving DecidableEq

/-- Errors of `retrieve_yaml_remote_rule`: `badGateway` embeds the explicit
`BadGateway` raise, `httpError code` embeds `response.raise_for_status()` on
the GET (which raises for status codes `400 <= code`). -/
inductive RemoteFetchError where
  | badGateway
  | httpError (code : Nat)
deriving DecidableEq

/-- Embeds `retrieve_yaml_remote_rule(url)` (resources.py lines 217-231).
The first component is the outcome (`.ok none` embeds Python `return None`,
`.ok (some body)` embeds `return response.content`); the second counts GET
requests issued, to make "no GET is issued" statable. -/
def retrieve_yaml_remote_rule (env : RemoteEnv) :
    Except RemoteFetchError (Option String) × Nat :=
  if env.head_status = 404 then (.ok none, 0)
  else if env.head_status ≠ 200 then (.error .badGateway, 0)
  else if 400 ≤ env.get_status then (.error (.httpError env.get_status), 1)
  else (.ok (some env.get_body), 1)

/-- A result record, restricted to the fields the retrieval layer reads:
`id`, `testcase.name`, `outcome` (absent when the upstream record has no
`outcome` key: the source reads it with `result.get('outcome')`), and
`submit_time`. -/
structure ResultR where
  id : Int
  testcase_name : String
  outcome : Option String
  submit_time : String
deriving DecidableEq

/-- Python truthiness of an optional string (`if testcase:`, `if when:`,
`if self.since:`): `None` and `""` are falsy. -/
def truthyOpt : Option String → Bool
  | none => false
  | some s => decide (s ≠ "")

/-- Embeds `BaseRetriever.__init__` lines 39-42: the `since` window is
`"1900-01-01T00:00:00.000000,{when}"` when a `when` cutoff is given,
otherwise `None`. -/
def mk_since (whenCutoff : Option String) : Option String :=
  match whenCutoff with
  | some w => if w = "" then none else some ("1900-01-01T00:00:00.000000," ++ w)
  | none => none

/-- Upper edge of a `since` window: `self.since.split(',')[1]`. -/
def until_of (since : String) : String :=
  String.mk ((splitOnChar ',' since.toList).getD 1 [])

/-- Embeds `ResultsRetriever._results_match_time` (resources.py lines
111-116): with no `since` bound every list is time-valid; with a bound,
every result's `submit_time` must be strictly below the bound's upper edge
(Python string comparison). -/
def results_match_time (since : Option String) (results : List ResultR) : Bool :=
  if truthyOpt since then
    results.all fun r => pyStrLt r.submit_time (until_of (since.getD ""))
  else true

/-- Query parameters sent to `GET /results/latest` (resources.py lines
80-86). -/
structure Params where
  distinct_on : String
  since : Option String
  testcases : Option String
deriving DecidableEq

/-- A subject: `type`, `identifier`, and its `result_queries()`.  The query
dimension is kept abstract (`Q`); the source only iterates over it. -/
structure Subject (Q : Type) where
  type : String
  identifier : String
  result_queries : List Q

/-- Configuration of a `ResultsRetriever` instance together with its
environment: `ignore_ids` and `since` from `BaseRetriever.__init__`,
`OUTCOMES_PASSED` from the app config, and the upstream ResultsDB modelled
as a pure function (one call per subject query; "no upstream state change"
between calls is determinism of this function). -/
structure RConfig (Q : Type) where
  ignore_ids : List Int
  since : Option String
  outcomes_passed : List String
  upstream : Q → Params → List ResultR

/-- Mutable state threaded through `ResultsRetriever` calls: the in-process
per-instance cache `self.cache`, the shared external cache
(`current_app.cache`), a counter of upstream requests issued and a counter
of external-cache writes (the two counters make "no request is re-issued"
and "an entry is written" statable). -/
structure RState where
  cache : List ((String × String) × List ResultR)
  external : List (String × List ResultR)
  upstreamCalls : Nat
  externalWrites : Nat
deriving DecidableEq

/-- The initial state of a fresh retriever: empty caches, no requests yet. -/
def initState : RState :=
  { cache := [], external := [], upstreamCalls := 0, externalWrites := 0 }

/-- External cache key (resources.py lines 73-75):
`"greenwave.resources:ResultsRetriever|" f"{subject.type} {subject.identifier} {testcase}"`. -/
def external_key {Q : Type} (subj : Subject Q) (testcase : String) : String :=
  "greenwave.resources:ResultsRetriever|" ++ subj.type ++ " " ++ subj.identifier
    ++ " " ++ testcase

/-- Python `result.get('outcome') in current_app.config['OUTCOMES_PASSED']`. -/
def outcome_passed (passed : List String) (r : ResultR) : Bool :=
  match r.outcome with
  | some o => passed.contains o
  | none => false

/-- The query parameters built in resources.py lines 80-86: the constant
`_distinct_on`, plus `since` and `testcases` when truthy. -/
def mk_params {Q : Type} (cfg : RConfig Q) (tc : Option String) : Params :=
  { distinct_on := "scenario,system_architecture,system_variant"
    since := if truthyOpt cfg.since then cfg.since else none
    testcases := if truthyOpt tc then tc else none }

/-- The merged result list of resources.py lines 88-91: one upstream request
per entry of `subject.result_queries()`, results concatenated in order. -/
def merged_results {Q : Type} (cfg : RConfig Q) (subj : Subject Q)
    (tc : Option String) : List ResultR :=
  subj.result_queries.flatMap fun q => cfg.upstream q (mk_params cfg tc)

/-- The fall-through of `ResultsRetriever._retrieve_all` (resources.py lines
80-103): query each of the subject's result queries upstream, merge, store
the merged list in the in-process cache when no testcase filter was given,
and store it in the external cache when a key was computed and every outcome
is passing.  The three updates of the Python body touch disjoint parts of the
state, so they are rendered as independent field updates. -/
def fetch_and_store {Q : Type} (cfg : RConfig Q) (subj : Subject Q)
    (tc : Option String) (ext_key : Option String) (st : RState) :
    List ResultR × RState :=
  let results := merged_results cfg subj tc
  (results,
    { cache :=
        if truthyOpt tc then st.cache
        else ((subj.type, subj.identifier), results) :: st.cache
      external :=
        match ext_key with
        | some k =>
          if results.all (outcome_passed cfg.outcomes_passed) then
            (k, results) :: st.external
          else st.external
        | none => st.external
      upstreamCalls := st.upstreamCalls + subj.result_queries.length
      externalWrites :=
        match ext_key with
        | some _ =>
          if results.all (outcome_passed cfg.outcomes_passed) then
            st.externalWrites + 1
          else st.externalWrites
        | none => st.externalWrites })

/-- Embeds `ResultsRetriever._retrieve_all(subject, testcase=None)`
(resources.py lines 63-103).  With a truthy testcase: an in-process cache hit
is filtered by testcase name and returned; otherwise the external cache is
consulted and its value returned when truthy (a non-empty list) and
time-valid; otherwise upstream is queried.  With a falsy testcase both cache
reads are skipped. -/
def results_retrieve_all {Q : Type} (cfg : RConfig Q) (subj : Subject Q)
    (tc : Option String) (st : RState) : List ResultR × RState :=
  match truthyOpt tc, cacheGet st.cache (subj.type, subj.identifier) with
  | true, some cached => (cached.filter (fun r => r.testcase_name == tc.getD ""), st)
  | true, none =>
    match cacheGet st.external (external_key subj (tc.getD "")) with
    | some rc =>
      if !rc.isEmpty && results_match_time cfg.since rc then (rc, st)
      else fetch_and_store cfg subj tc (some (external_key subj (tc.getD ""))) st
    | none => fetch_and_store cfg subj tc (some (external_key subj (tc.getD ""))) st
  | false, _ => fetch_and_store cfg subj tc none st

/-- Embeds `BaseRetriever.retrieve` (resources.py lines 44-46): the items
produced by `_retrieve_all`, minus those whose `id` is in `ignore_ids`.
Generic in the item type; `getId` reads `item['id']`. -/
def base_retrieve {α : Type} (ignore_ids : List Int) (getId : α → Int)
    (items : List α) : List α :=
  items.filter fun item => !ignore_ids.contains (getId item)

/-- `ResultsRetriever.retrieve`: `BaseRetriever.retrieve` on top of
`ResultsRetriever._retrieve_all`. -/
def results_retrieve {Q : Type} (cfg : RConfig Q) (subj : Subject Q)
    (tc : Option String) (st : RState) : List ResultR × RState :=
  let r := results_retrieve_all cfg subj tc st
  (base_retrieve cfg.ignore_ids (fun x => x.id) r.1, r.2)

/-- A waiver record, restricted to the fields the retrieval layer reads. -/
structure Waiver where
  id : Int
  waived : Bool
deriving DecidableEq

/-- A waiver filter dictionary, embedded as an association list. -/
abbrev Filt : Type := List (String × String)

/-- Python `dict.update({key: value})` on an association list: replaces the
binding in place when the key is present, appends it otherwise. -/
def dictUpdate (f : List (String × String)) (key val : String) :
    List (String × String) :=
  if f.any (fun p => p.1 == key) then
    f.map fun p => if p.1 == key then (key, val) else p
  else f ++ [(key, val)]

/-- Embeds `WaiversRetriever._retrieve_all(filters)` (resources.py lines
130-135).  The upstream WaiverDB (`POST /waivers/+filtered`) is modelled as a
function of the filter list.  The second component is the filter list as the
upstream POST receives it — which, because Python mutates the caller's
dictionaries in place, is also the caller's filter list after the call. -/
def waivers_retrieve_all (since : Option String)
    (upstream : List Filt → List Waiver) (filters : List Filt) :
    List Waiver × List Filt :=
  let filters' :=
    if truthyOpt since then
      filters.map fun f => dictUpdate f "since" (since.getD "")
    else filters
  let waivers := upstream filters'
  (waivers.filter (fun w => w.waived), filters')

/-- `WaiversRetriever.retrieve`: `BaseRetriever.retrieve` on top of
`WaiversRetriever._retrieve_all`. -/
def waivers_retrieve (ignore_ids : List Int) (since : Option String)
    (upstream : List Filt → List Waiver) (filters : List Filt) :
    List Waiver × List Filt :=
  let r := waivers_retrieve_all since upstream filters
  (base_retrieve ignore_ids (fun w => w.id) r.1, r.2)

/-- A concrete subject with a single result query, used for evaluating the
model on closed inputs. -/
def subjW : Subject Unit :=
  { type := "koji_build", identifier := "pkg-1-1", result_queries := [()] }

/-- A concrete retriever configuration whose upstream ResultsDB returns no
results at all. -/
def cfgEmpty : RConfig Unit :=
  { ignore_ids := [], since := none, outcomes_passed := ["PASSED"],
    upstream := fun _ _ => [] }

/-- A concrete passing result. -/
def resPass : ResultR :=
  { id := 1, testcase_name := "tc", outcome := some "PASSED",
    submit_time := "2024-01-01T00:00:00.000000" }

/-- A concrete retriever configuration whose upstream ResultsDB always
returns the single passing result `resPass`. -/
def cfgPass : RConfig Unit :=
  { ignore_ids := [], since := none, outcomes_passed := ["PASSED"],
    upstream := fun _ _ => [resPass] }

/-- A result that was submitted after the upper edge of the `since` window
used by `cfgSince`. -/
def resLate : ResultR :=
  { id := 2, testcase_name := "t", outcome := some "PASSED",
    submit_time := "2025-06-01T00:00:00.000000" }

/-- A retriever configuration with a `since` bound whose upper edge is
2024-01-01, over an upstream returning `resLate`. -/
def cfgSince : RConfig Unit :=
  { ignore_ids := [], since := mk_since (some "2024-01-01T00:00:00.000000"),
    outcomes_passed := ["PASSED"],
    upstream := fun _ _ => [resLate] }

/-- A state whose external cache already holds `[resLate]` under the key for
`subjW` and testcase `"t"`, as left behind by an earlier retriever. -/
def stStale : RState :=
  { cache := [], external := [(external_key subjW "t", [resLate])],
    upstreamCalls := 0, externalWrites := 0 }

/-! ### Helper lemmas -/

theorem contains_false_iff {α : Type} [BEq α] [LawfulBEq α] (l : List α) (a : α) :
    l.contains a = false ↔ a ∉ l := by
  rw [show l.contains a = l.elem a from rfl]
  rw [← Bool.not_eq_true, List.elem_iff]

theorem cacheGet_cons_self {κ ν : Type} [BEq κ] [LawfulBEq κ] (k : κ) (v : ν)
    (l : List (κ × ν)) : cacheGet ((k, v) :: l) k = some v := by
  simp [cacheGet]

theorem cacheGet_map_update (f : List (String × String)) (k v : String)
    (h : f.any (fun p => p.1 == k) = true) :
    cacheGet (f.map fun p => if p.1 == k then (k, v) else p) k = some v := by
  induction f with
  | nil => simp at h
  | cons p rest ih =>
    rw [List.map_cons]
    by_cases hp : (p.1 == k) = true
    · rw [if_pos hp, cacheGet]
      simp
    · rw [if_neg hp, cacheGet, if_neg hp]
      apply ih
      rw [List.any_cons, Bool.eq_false_iff.mpr hp, Bool.false_or] at h
      exact h

theorem cacheGet_append_new (f : List (String × String)) (k v : String)
    (h : f.any (fun p => p.1 == k) = false) :
    cacheGet (f ++ [(k, v)]) k = some v := by
  induction f with
  | nil => simp [cacheGet]
  | cons p rest ih =>
    rw [List.cons_append, cacheGet]
    rw [List.any_cons, Bool.or_eq_false_iff] at h
    rw [if_neg (by rw [h.1]; exact Bool.false_ne_true)]
    exact ih h.2

theorem cacheGet_dictUpdate (f : List (String × String)) (k v : String) :
    cacheGet (dictUpdate f k v) k = some v := by
  by_cases h : f.any (fun p => p.1 == k) = true
  · rw [dictUpdate, if_pos h]
    exact cacheGet_map_update f k v h
  · rw [dictUpdate, if_neg h]
    exact cacheGet_append_new f k v (Bool.eq_false_iff.mpr h)

theorem ne_empty_append_left (a b : String) (h : a ≠ "") : a ++ b ≠ "" := by
  intro he
  apply h
  cases a with
  | mk d =>
    cases b with
    | mk e =>
      have hd : d ++ e = [] := congrArg String.data he
      rcases List.append_eq_nil.mp hd with ⟨h1, _⟩
      subst h1
      rfl

theorem truthy_mk_since (whenCutoff : Option String) :
    truthyOpt (mk_since whenCutoff) = truthyOpt whenCutoff := by
  cases whenCutoff with
  | none => rfl
  | some w =>
    by_cases hw : w = ""
    · subst hw; rfl
    · rw [mk_since, if_neg hw]
      have h1 : truthyOpt (some ("1900-01-01T00:00:00.000000," ++ w)) = true := by
        have hne := ne_empty_append_left "1900-01-01T00:00:00.000000," w (by decide)
        exact decide_eq_true hne
      have h2 : truthyOpt (some w) = true := decide_eq_true hw
      rw [h1, h2]

theorem waivers_retrieve_all_snd (since : Option String)
    (upstream : List Filt → List Waiver) (filters : List Filt) :
    (waivers_retrieve_all since upstream filters).2
      = if truthyOpt since then
          filters.map (fun f => dictUpdate f "since" (since.getD ""))
        else filters := rfl

theorem waivers_retrieve_all_fst (since : Option String)
    (upstream : List Filt → List Waiver) (filters : List Filt) :
    (waivers_retrieve_all since upstream filters).1
      = (upstream ((waivers_retrieve_all since upstream filters).2)).filter
          (fun w => w.waived) := rfl

/-! ### C6: `BaseRetriever.retrieve` filters out ignored ids -/

/-- C6: for every `ignore_ids` set (including the empty one) and every item
list produced by `_retrieve_all`, `BaseRetriever.retrieve` returns exactly
the items whose id is not in `ignore_ids` — order is preserved (the output
is a sublist of the input), membership is characterised exactly, counts of
surviving items are unchanged, and no returned item has an ignored id. -/
theorem base_retrieve_filters_ignore_ids {α : Type} [DecidableEq α]
    (ignore_ids : List Int) (getId : α → Int) (items : List α) :
    (base_retrieve ignore_ids getId items).Sublist items
  ∧ (∀ x, x ∈ base_retrieve ignore_ids getId items ↔
       x ∈ items ∧ getId x ∉ ignore_ids)
  ∧ (∀ x, x ∈ base_retrieve ignore_ids getId items → getId x ∉ ignore_ids)
  ∧ (∀ x, List.count x (base_retrieve ignore_ids getId items)
       = if getId x ∈ ignore_ids then 0 else List.count x items) := by
  have hmem : ∀ x, x ∈ base_retrieve ignore_ids getId items ↔
      x ∈ items ∧ getId x ∉ ignore_ids := by
    intro x
    rw [base_retrieve, List.mem_filter, Bool.not_eq_true']
    rw [contains_false_iff]
  refine ⟨List.filter_sublist items, hmem, fun x hx => ((hmem x).mp hx).2, ?_⟩
  intro x
  by_cases h : getId x ∈ ignore_ids
  · rw [if_pos h]
    rw [List.count_eq_zero]
    intro hx
    exact ((hmem x).mp hx).2 h
  · rw [if_neg h, base_retrieve]
    exact List.count_filter (by simpa [contains_false_iff] using h)

/-- Witness for C6 at a concrete instance: with `ignore_ids = [2, 4]` over
the items `[1, 2, 3]`, item 1 is returned, the ignored item 2 is not, and
the count of the surviving item 3 is unchanged. -/
theorem base_retrieve_filters_ignore_ids_check :
    (1 : Int) ∈ base_retrieve [(2 : Int), 4] id [1, 2, 3]
    ∧ (2 : Int) ∉ base_retrieve [(2 : Int), 4] id [1, 2, 3]
    ∧ List.count (3 : Int) (base_retrieve [(2 : Int), 4] id [1, 2, 3])
        = List.count (3 : Int) [1, 2, 3] := by
  refine ⟨?_, ?_, ?_⟩
  · exact ((base_retrieve_filters_ignore_ids [2, 4] id [1, 2, 3]).2.1 1).mpr
      ⟨by decide, by decide⟩
  · intro h
    exact (base_retrieve_filters_ignore_ids [2, 4] id [1, 2, 3]).2.2.1 2 h
      (by decide)
  · rw [(base_retrieve_filters_ignore_ids [2, 4] id [1, 2, 3]).2.2.2 3,
      if_neg (by decide)]

/-! ### C7: `WaiversRetriever` retains exactly the waived entries -/

/-- C7: among the waiver records fetched from upstream, exactly those with
`waived == true` (and id not ignored) reach the caller: no `waived == false`
record ever appears in the result, and every `waived == true` record whose
id is not in `ignore_ids` does appear. -/
theorem waivers_retain_waived_only (ignore_ids : List Int)
    (since : Option String) (upstream : List Filt → List Waiver)
    (filters : List Filt) :
    (∀ w, w ∈ (waivers_retrieve ignore_ids since upstream filters).1 →
       w.waived = true)
  ∧ (∀ w, w ∈ upstream (waivers_retrieve_all since upstream filters).2 →
       w.waived = true → w.id ∉ ignore_ids →
       w ∈ (waivers_retrieve ignore_ids since upstream filters).1)
  ∧ (∀ w, w ∈ (waivers_retrieve ignore_ids since upstream filters).1 →
       w ∈ upstream (waivers_retrieve_all since upstream filters).2
       ∧ w.id ∉ ignore_ids) := by
  have h1 : (waivers_retrieve ignore_ids since upstream filters).1
      = base_retrieve ignore_ids (fun w => w.id)
          ((upstream (waivers_retrieve_all since upstream filters).2).filter
            (fun w => w.waived)) := rfl
  have hmem : ∀ w, w ∈ (waivers_retrieve ignore_ids since upstream filters).1 ↔
      (w ∈ upstream (waivers_retrieve_all since upstream filters).2
        ∧ w.waived = true) ∧ w.id ∉ ignore_ids := by
    intro w
    rw [h1]
    rw [(base_retrieve_filters_ignore_ids ignore_ids (fun w => w.id) _).2.1 w]
    rw [List.mem_filter]
  refine ⟨fun w hw => ((hmem w).mp hw).1.2,
          fun w hw hwav hid => (hmem w).mpr ⟨⟨hw, hwav⟩, hid⟩,
          fun w hw => ⟨((hmem w).mp hw).1.1, ((hmem w).mp hw).2⟩⟩

/-- Witness for C7 at a concrete instance: a fetched list containing both a
waived and an unwaived record retains only the waived one. -/
theorem waivers_retain_waived_only_check :
    ({ id := 1, waived := true } : Waiver)
      ∈ (waivers_retrieve [] none
          (fun _ => [{ id := 1, waived := true }, { id := 2, waived := false }])
          [[]]).1
    ∧ (∀ w, w ∈ (waivers_retrieve [] none
          (fun _ => [{ id := 1, waived := true }, { id := 2, waived := false }])
          [[]]).1 → w.waived = true) :=
  ⟨(waivers_retain_waived_only [] none _ [[]]).2.1 _ (by decide) rfl (by decide),
   (waivers_retain_waived_only [] none _ [[]]).1⟩

/-! ### C10: `WaiversRetriever._retrieve_all` updates the caller's filters -/

/-- C10: when a `when` cutoff was configured at construction, a `since` key
is set in every filter dictionary before the upstream POST is issued (the
second component of `waivers_retrieve_all` is the filter list the POST
receives, which is the caller's own list since Python updates the
dictionaries in place); with no cutoff the filters are passed unchanged. -/
theorem waivers_filters_since_update (whenCutoff : Option String)
    (upstream : List Filt → List Waiver) (filters : List Filt) :
    (truthyOpt whenCutoff = true →
       (waivers_retrieve_all (mk_since whenCutoff) upstream filters).2
         = filters.map
             (fun f => dictUpdate f "since" ((mk_since whenCutoff).getD ""))
       ∧ (∀ f, f ∈ (waivers_retrieve_all (mk_since whenCutoff) upstream filters).2 →
           cacheGet f "since" = some ((mk_since whenCutoff).getD "")))
  ∧ (truthyOpt whenCutoff = false →
       (waivers_retrieve_all (mk_since whenCutoff) upstream filters).2 = filters)
  ∧ (waivers_retrieve_all (mk_since whenCutoff) upstream filters).1
      = (upstream
          ((waivers_retrieve_all (mk_since whenCutoff) upstream filters).2)).filter
          (fun w => w.waived) := by
  refine ⟨?_, ?_, waivers_retrieve_all_fst _ _ _⟩
  · intro ht
    have htm : truthyOpt (mk_since whenCutoff) = true := by
      rw [truthy_mk_since]; exact ht
    have hsnd := waivers_retrieve_all_snd (mk_since whenCutoff) upstream filters
    rw [htm] at hsnd
    simp only [if_true] at hsnd
    refine ⟨hsnd, ?_⟩
    intro f hf
    rw [hsnd] at hf
    rcases List.mem_map.mp hf with ⟨g, hg, rfl⟩
    exact cacheGet_dictUpdate g "since" _
  · intro hf
    have htm : truthyOpt (mk_since whenCutoff) = false := by
      rw [truthy_mk_since]; exact hf
    have hsnd := waivers_retrieve_all_snd (mk_since whenCutoff) upstream filters
    rw [htm] at hsnd
    simpa using hsnd

/-- Witness for C10 at a concrete instance: with a cutoff, the single filter
passed to the POST carries the `since` window; without one it is untouched. -/
theorem waivers_filters_since_update_check :
    (waivers_retrieve_all (mk_since (some "2024-01-01T00:00:00.000000"))
        (fun _ => []) [[("product_version", "f36")]]).2
      = [[("product_version", "f36")]].map
          (fun f => dictUpdate f "since"
            ((mk_since (some "2024-01-01T00:00:00.000000")).getD ""))
    ∧ (waivers_retrieve_all (mk_since none) (fun _ => [])
        [[("product_version", "f36")]]).2
      = [[("product_version", "f36")]] :=
  ⟨((waivers_filters_since_update (some "2024-01-01T00:00:00.000000")
      (fun _ => []) [[("product_version", "f36")]]).1 (by decide)).1,
   (waivers_filters_since_update none (fun _ => [])
      [[("product_version", "f36")]]).2.1 (by decide)⟩

/-! ### C8: remote policy fetcher -/

/-- C8 counterexample: HEAD status 204 is a 2xx status, yet the fetcher
raises a gateway error and issues no GET — the source tests
`status_code != 200`, not "non-2xx", so a 2xx status other than 200 is not
treated as success as the claim states. -/
theorem remote_rule_2xx_cex :
    retrieve_yaml_remote_rule
        { head_status := 204, get_status := 200, get_body := "body" }
      = (.error .badGateway, 0)
    ∧ 200 ≤ 204 ∧ 204 < 300 := by decide

/-- C8 (amended): the fetcher issues the HEAD probe first; a 404 yields the
null result with no GET issued; any other HEAD status different from 200
(2xx or not) raises a gateway error with no GET issued; only HEAD status
exactly 200 is treated as success, upon which one GET is issued and the raw
body returned (a GET status of 400 or above surfaces as an HTTP status
error). -/
theorem remote_rule_behavior (env : RemoteEnv) :
    (env.head_status = 404 → retrieve_yaml_remote_rule env = (.ok none, 0))
  ∧ (env.head_status ≠ 404 → env.head_status ≠ 200 →
       retrieve_yaml_remote_rule env = (.error .badGateway, 0))
  ∧ (env.head_status = 200 →
       (retrieve_yaml_remote_rule env).2 = 1
       ∧ (env.get_status < 400 →
            retrieve_yaml_remote_rule env = (.ok (some env.get_body), 1))
       ∧ (400 ≤ env.get_status →
            retrieve_yaml_remote_rule env
              = (.error (.httpError env.get_status), 1))) := by
  refine ⟨?_, ?_, ?_⟩
  · intro h
    rw [retrieve_yaml_remote_rule, if_pos h]
  · intro h404 h200
    rw [retrieve_yaml_remote_rule, if_neg h404, if_pos h200]
  · intro h200
    have h404 : ¬env.head_status = 404 := by rw [h200]; decide
    refine ⟨?_, ?_, ?_⟩
    · by_cases hg : 400 ≤ env.get_status
      · rw [retrieve_yaml_remote_rule, if_neg h404, if_neg (by rw [h200]; simp),
            if_pos hg]
      · rw [retrieve_yaml_remote_rule, if_neg h404, if_neg (by rw [h200]; simp),
            if_neg hg]
    · intro hg
      rw [retrieve_yaml_remote_rule, if_neg h404, if_neg (by rw [h200]; simp),
          if_neg (by omega)]
    · intro hg
      rw [retrieve_yaml_remote_rule, if_neg h404, if_neg (by rw [h200]; simp),
          if_pos hg]

/-- Witness for C8 at concrete instances: 404, 500 and 200/200 HEAD-GET
behaviours. -/
theorem remote_rule_behavior_check :
    retrieve_yaml_remote_rule { head_status := 404, get_status := 200, get_body := "b" }
      = (.ok none, 0)
    ∧ retrieve_yaml_remote_rule { head_status := 500, get_status := 200, get_body := "b" }
      = (.error .badGateway, 0)
    ∧ retrieve_yaml_remote_rule { head_status := 200, get_status := 200, get_body := "b" }
      = (.ok (some "b"), 1) :=
  ⟨(remote_rule_behavior _).1 rfl,
   (remote_rule_behavior _).2.1 (by decide) (by decide),
   ((remote_rule_behavior _).2.2 rfl).2.1 (by decide)⟩

/-! ### C9: Koji build target resolution -/

/-- C9: `retrieve_koji_build_target` returns the second positional element
exactly when the task-request structure is a list of length greater than one
whose second element is a string; in every other case it returns the null
sentinel (the function is total, so it never raises).  In particular
`["x"]` yields null, `["x", "target"]` yields `"target"` and `["x", 5]`
yields null. -/
theorem koji_build_target_characterization :
    (∀ (tr : PyVal) (t : String),
        retrieve_koji_build_target tr = some t ↔
          ∃ xs, tr = .pList xs ∧ 1 < xs.length ∧ xs.getD 1 .pNone = .pString t)
  ∧ retrieve_koji_build_target (.pList [.pString "x"]) = none
  ∧ retrieve_koji_build_target (.pList [.pString "x", .pString "target"])
      = some "target"
  ∧ retrieve_koji_build_target (.pList [.pString "x", .pInt 5]) = none := by
  refine ⟨?_, rfl, rfl, rfl⟩
  intro tr t
  constructor
  · intro h
    cases tr with
    | pList xs =>
      by_cases hl : 1 < xs.length
      · rw [retrieve_koji_build_target, if_pos hl] at h
        cases hx : xs.getD 1 .pNone with
        | pString s =>
          rw [hx] at h
          refine ⟨xs, rfl, hl, ?_⟩
          rw [hx]
          cases h
          rfl
        | pInt n => rw [hx] at h; cases h
        | pList ys => rw [hx] at h; cases h
        | pNone => rw [hx] at h; cases h
      · rw [retrieve_koji_build_target, if_neg hl] at h
        cases h
    | pString s => cases h
    | pInt n => cases h
    | pNone => cases h
  · rintro ⟨xs, rfl, hl, hx⟩
    rw [retrieve_koji_build_target, if_pos hl, hx]

/-- Witness for C9: applying the characterisation to the concrete list
`["x", "target"]`. -/
theorem koji_build_target_characterization_check :
    retrieve_koji_build_target (.pList [.pString "x", .pString "target"])
      = some "target" :=
  (koji_build_target_characterization.1 (.pList [.pString "x", .pString "target"])
      "target").mpr ⟨[.pString "x", .pString "target"], rfl, by decide, rfl⟩

/-! ### C1 and C2: the SCM parser -/

theorem getD_drop {α : Type} (l : List α) (i : Nat) (d : α) :
    (l.drop i).getD 0 d = l.getD i d := by
  rw [List.getD_eq_getElem?_getD, List.getD_eq_getElem?_getD, List.getElem?_drop,
      Nat.add_zero]

/-- The namespace computed from `path.rsplit('/', 2)` (as the source does)
coincides with "second-to-last segment of `path.split('/')` when there are at
least three segments, else empty". -/
theorem rsplit_namespace_eq (l : List Char) :
    (if (pyRsplit2 '/' l).length < 3 then ""
     else String.mk ((pyRsplit2 '/' l).getD ((pyRsplit2 '/' l).length - 2) []))
    = (if 3 ≤ (splitOnChar '/' l).length then
         String.mk ((splitOnChar '/' l).getD ((splitOnChar '/' l).length - 2) [])
       else "") := by
  by_cases h : (splitOnChar '/' l).length ≤ 3
  · have hpc : pyRsplit2 '/' l = splitOnChar '/' l := by
      rw [pyRsplit2, if_pos h]
    rw [hpc]
    by_cases h3 : (splitOnChar '/' l).length < 3
    · rw [if_pos h3, if_neg (by omega)]
    · rw [if_neg h3, if_pos (by omega)]
  · have hpc : pyRsplit2 '/' l
        = joinChar '/' ((splitOnChar '/' l).take ((splitOnChar '/' l).length - 2))
          :: (splitOnChar '/' l).drop ((splitOnChar '/' l).length - 2) := by
      rw [pyRsplit2, if_neg h]
    have hlen : (pyRsplit2 '/' l).length = 3 := by
      rw [hpc, List.length_cons, List.length_drop]
      omega
    rw [hlen, if_neg (by omega), if_pos (by omega), hpc]
    have h1 : (3 : Nat) - 2 = 0 + 1 := rfl
    rw [h1, List.getD_cons_succ, getD_drop]

/-- C1 counterexample: the source string `"https://host/ns/pkg"` is non-empty,
yet the parser does not return the tuple the claim describes — the fragment
is empty, so it raises the bad-gateway error instead of returning. -/
theorem scm_parse_cex :
    retrieve_scm_from_koji_build "nvr" (some "https://host/ns/pkg") "koji"
      = .error .badGateway
    ∧ retrieve_scm_from_koji_build "nvr" (some "https://host/ns/pkg") "koji"
      ≠ .ok ("ns", "pkg", (urlparse "https://host/ns/pkg").fragment) := by decide

/-- C1 (amended): for every non-empty source string whose parsed URL fragment
is non-empty, `retrieve_scm_from_koji_build` returns exactly the tuple
(namespace, package name, revision) where the namespace is the second-to-last
path segment if the path has at least three segments after splitting on `/`
and the empty string otherwise, the package name is the last path segment
with one trailing literal `.git` stripped (case-sensitively), and the
revision is the URL fragment. -/
theorem scm_parse_success (nvr koji_url source : String) (hs : source ≠ "")
    (hf : (urlparse source).fragment ≠ "") :
    retrieve_scm_from_koji_build nvr (some source) koji_url =
      .ok
        (if 3 ≤ (splitOnChar '/' (urlparse source).path.toList).length then
           String.mk ((splitOnChar '/' (urlparse source).path.toList).getD
             ((splitOnChar '/' (urlparse source).path.toList).length - 2) [])
         else "",
         String.mk (stripGitSuffix
           ((splitOnChar '/' (urlparse source).path.toList).getLastD [])),
         (urlparse source).fragment) := by
  have hns := rsplit_namespace_eq (urlparse source).path.toList
  simp only [retrieve_scm_from_koji_build]
  rw [if_neg hs, if_neg hf, hns]

/-- Witness for C1: the claim's own example, plus the case-sensitivity of the
`.git` suffix (`.GIT` is not stripped). -/
theorem scm_parse_success_check :
    retrieve_scm_from_koji_build "nvr" (some "https://host/ns/pkg.git#abc123") "koji"
      = .ok ("ns", "pkg", "abc123")
    ∧ retrieve_scm_from_koji_build "nvr" (some "https://host/ns/pkg.GIT#r") "koji"
      = .ok ("ns", "pkg.GIT", "r") := by
  constructor
  · rw [scm_parse_success "nvr" "koji" "https://host/ns/pkg.git#abc123"
        (by decide) (by decide)]
    decide
  · rw [scm_parse_success "nvr" "koji" "https://host/ns/pkg.GIT#r"
        (by decide) (by decide)]
    decide

/-- C2: the parser raises the no-source error exactly when the source is
absent or empty; it raises the bad-gateway error exactly when the source is
non-empty but its parsed fragment is empty; and a non-empty source with a
non-empty fragment raises neither (it returns a tuple). -/
theorem scm_error_conditions (nvr koji_url : String) (source : Option String) :
    (retrieve_scm_from_koji_build nvr source koji_url = .error .noSource ↔
       source = none ∨ source = some "")
  ∧ (retrieve_scm_from_koji_build nvr source koji_url = .error .badGateway ↔
       ∃ s, source = some s ∧ s ≠ "" ∧ (urlparse s).fragment = "")
  ∧ (∀ s, source = some s → s ≠ "" → (urlparse s).fragment ≠ "" →
       ∃ t, retrieve_scm_from_koji_build nvr source koji_url = .ok t) := by
  cases source with
  | none =>
    refine ⟨by simp [retrieve_scm_from_koji_build], ?_, ?_⟩
    · simp [retrieve_scm_from_koji_build]
    · intro s hs
      cases hs
  | some s =>
    by_cases he : s = ""
    · subst he
      have hv : retrieve_scm_from_koji_build nvr (some "") koji_url
          = .error .noSource := rfl
      refine ⟨?_, ?_, ?_⟩
      · rw [hv]
        simp
      · rw [hv]
        constructor
        · intro h
          exact absurd h (by simp)
        · rintro ⟨s', hs', hne, _⟩
          injection hs' with h
          exact absurd h.symm hne
      · intro s' hs' hne _
        injection hs' with h
        exact absurd h.symm hne
    · by_cases hfr : (urlparse s).fragment = ""
      · have hv : retrieve_scm_from_koji_build nvr (some s) koji_url
            = .error .badGateway := by
          simp only [retrieve_scm_from_koji_build]
          rw [if_neg he, if_pos hfr]
        refine ⟨?_, ?_, ?_⟩
        · rw [hv]
          simp [he]
        · exact ⟨fun _ => ⟨s, rfl, he, hfr⟩, fun _ => hv⟩
        · intro s' hs' _ hfr'
          injection hs' with h
          subst h
          exact absurd hfr hfr'
      · have hv : retrieve_scm_from_koji_build nvr (some s) koji_url
            = .ok
              ((if (pyRsplit2 '/' (urlparse s).path.toList).length < 3 then ""
                else String.mk ((pyRsplit2 '/' (urlparse s).path.toList).getD
                  ((pyRsplit2 '/' (urlparse s).path.toList).length - 2) [])),
               String.mk (stripGitSuffix
                 ((splitOnChar '/' (urlparse s).path.toList).getLastD [])),
               (urlparse s).fragment) := by
          simp only [retrieve_scm_from_koji_build]
          rw [if_neg he, if_neg hfr]
        refine ⟨?_, ?_, ?_⟩
        · rw [hv]
          constructor
          · intro h
            exact absurd h (by simp)
          · rintro (h | h)
            · cases h
            · injection h with h'
              exact absurd h' he
        · rw [hv]
          constructor
          · intro h
            exact absurd h (by simp)
          · rintro ⟨s', hs', _, hfr'⟩
            injection hs' with h'
            subst h'
            exact absurd hfr' hfr
        · intro s' hs' _ _
          exact ⟨_, hv⟩

/-- Witness for C2: the no-source and bad-gateway conditions at concrete
inputs. -/
theorem scm_error_conditions_check :
    retrieve_scm_from_koji_build "n" (some "") "k" = .error .noSource
    ∧ retrieve_scm_from_koji_build "n" none "k" = .error .noSource
    ∧ retrieve_scm_from_koji_build "n" (some "https://host/ns/pkg") "k"
        = .error .badGateway :=
  ⟨((scm_error_conditions "n" "k" (some "")).1).mpr (Or.inr rfl),
   ((scm_error_conditions "n" "k" none).1).mpr (Or.inl rfl),
   ((scm_error_conditions "n" "k" (some "https://host/ns/pkg")).2.1).mpr
     ⟨"https://host/ns/pkg", rfl, by decide, by decide⟩⟩

/-! ### Branch lemmas for the results retriever -/

theorem fetch_and_store_fst {Q : Type} (cfg : RConfig Q) (subj : Subject Q)
    (tc extk : Option String) (st : RState) :
    (fetch_and_store cfg subj tc extk st).1 = merged_results cfg subj tc := rfl

theorem fetch_and_store_calls {Q : Type} (cfg : RConfig Q) (subj : Subject Q)
    (tc extk : Option String) (st : RState) :
    (fetch_and_store cfg subj tc extk st).2.upstreamCalls
      = st.upstreamCalls + subj.result_queries.length := rfl

theorem fetch_and_store_cache_truthy {Q : Type} (cfg : RConfig Q)
    (subj : Subject Q) (tc extk : Option String) (st : RState)
    (ht : truthyOpt tc = true) :
    (fetch_and_store cfg subj tc extk st).2.cache = st.cache := by
  simp [fetch_and_store, ht]

theorem fetch_and_store_external_pos {Q : Type} (cfg : RConfig Q)
    (subj : Subject Q) (tc : Option String) (k : String) (st : RState)
    (hp : (merged_results cfg subj tc).all (outcome_passed cfg.outcomes_passed)
      = true) :
    (fetch_and_store cfg subj tc (some k) st).2.external
      = (k, merged_results cfg subj tc) :: st.external := by
  simp [fetch_and_store, hp]

theorem fetch_and_store_external_neg {Q : Type} (cfg : RConfig Q)
    (subj : Subject Q) (tc : Option String) (k : String) (st : RState)
    (hp : (merged_results cfg subj tc).all (outcome_passed cfg.outcomes_passed)
      = false) :
    (fetch_and_store cfg subj tc (some k) st).2.external = st.external := by
  simp [fetch_and_store, hp]

theorem fetch_and_store_external_none {Q : Type} (cfg : RConfig Q)
    (subj : Subject Q) (tc : Option String) (st : RState) :
    (fetch_and_store cfg subj tc none st).2.external = st.external := rfl

theorem fetch_and_store_writes_pos {Q : Type} (cfg : RConfig Q)
    (subj : Subject Q) (tc : Option String) (k : String) (st : RState)
    (hp : (merged_results cfg subj tc).all (outcome_passed cfg.outcomes_passed)
      = true) :
    (fetch_and_store cfg subj tc (some k) st).2.externalWrites
      = st.externalWrites + 1 := by
  simp [fetch_and_store, hp]

theorem fetch_and_store_writes_neg {Q : Type} (cfg : RConfig Q)
    (subj : Subject Q) (tc : Option String) (k : String) (st : RState)
    (hp : (merged_results cfg subj tc).all (outcome_passed cfg.outcomes_passed)
      = false) :
    (fetch_and_store cfg subj tc (some k) st).2.externalWrites
      = st.externalWrites := by
  simp [fetch_and_store, hp]

theorem fetch_and_store_writes_none {Q : Type} (cfg : RConfig Q)
    (subj : Subject Q) (tc : Option String) (st : RState) :
    (fetch_and_store cfg subj tc none st).2.externalWrites
      = st.externalWrites := rfl

theorem rra_cache_hit {Q : Type} (cfg : RConfig Q) (subj : Subject Q)
    (tc : Option String) (st : RState) (cached : List ResultR)
    (ht : truthyOpt tc = true)
    (h1 : cacheGet st.cache (subj.type, subj.identifier) = some cached) :
    results_retrieve_all cfg subj tc st
      = (cached.filter (fun r => r.testcase_name == tc.getD ""), st) := by
  unfold results_retrieve_all
  rw [ht, h1]

theorem rra_ext_hit {Q : Type} (cfg : RConfig Q) (subj : Subject Q)
    (tc : Option String) (st : RState) (rc : List ResultR)
    (ht : truthyOpt tc = true)
    (h1 : cacheGet st.cache (subj.type, subj.identifier) = none)
    (h2 : cacheGet st.external (external_key subj (tc.getD "")) = some rc)
    (hv : (!rc.isEmpty && results_match_time cfg.since rc) = true) :
    results_retrieve_all cfg subj tc st = (rc, st) := by
  unfold results_retrieve_all
  rw [ht, h1, h2]
  show (if (!rc.isEmpty && results_match_time cfg.since rc) = true then (rc, st)
        else fetch_and_store cfg subj tc (some (external_key subj (tc.getD ""))) st)
      = (rc, st)
  rw [if_pos hv]

theorem rra_ext_stale {Q : Type} (cfg : RConfig Q) (subj : Subject Q)
    (tc : Option String) (st : RState) (rc : List ResultR)
    (ht : truthyOpt tc = true)
    (h1 : cacheGet st.cache (subj.type, subj.identifier) = none)
    (h2 : cacheGet st.external (external_key subj (tc.getD "")) = some rc)
    (hv : (!rc.isEmpty && results_match_time cfg.since rc) = false) :
    results_retrieve_all cfg subj tc st
      = fetch_and_store cfg subj tc (some (external_key subj (tc.getD ""))) st := by
  unfold results_retrieve_all
  rw [ht, h1, h2]
  show (if (!rc.isEmpty && results_match_time cfg.since rc) = true then (rc, st)
        else fetch_and_store cfg subj tc (some (external_key subj (tc.getD ""))) st)
      = fetch_and_store cfg subj tc (some (external_key subj (tc.getD ""))) st
  rw [if_neg (by rw [hv]; exact Bool.false_ne_true)]

theorem rra_ext_none {Q : Type} (cfg : RConfig Q) (subj : Subject Q)
    (tc : Option String) (st : RState)
    (ht : truthyOpt tc = true)
    (h1 : cacheGet st.cache (subj.type, subj.identifier) = none)
    (h2 : cacheGet st.external (external_key subj (tc.getD "")) = none) :
    results_retrieve_all cfg subj tc st
      = fetch_and_store cfg subj tc (some (external_key subj (tc.getD ""))) st := by
  unfold results_retrieve_all
  rw [ht, h1, h2]

theorem rra_falsy {Q : Type} (cfg : RConfig Q) (subj : Subject Q)
    (tc : Option String) (st : RState) (ht : truthyOpt tc = false) :
    results_retrieve_all cfg subj tc st
      = fetch_and_store cfg subj tc none st := by
  unfold results_retrieve_all
  rw [ht]

/-! ### C3: staleness validation of external-cache reads -/

/-- C3: when reading the external cache with a truthy testcase and a cold
in-process cache, a non-empty cached list is returned as-is (no state change,
hence no upstream request) when it is time-valid; when it fails the check the
cache is treated as a miss and one upstream request per subject query is
issued.  Time-validity itself is: with a `since` bound, every result's
`submit_time` is strictly below the bound's upper edge; with no bound, every
list is time-valid. -/
theorem staleness_validation {Q : Type} (cfg : RConfig Q) (subj : Subject Q)
    (tc : String) (htc : tc ≠ "") (st : RState) (rc : List ResultR)
    (hck : cacheGet st.cache (subj.type, subj.identifier) = none)
    (hext : cacheGet st.external (external_key subj tc) = some rc)
    (hne : rc ≠ []) :
    (results_match_time cfg.since rc = true →
       results_retrieve_all cfg subj (some tc) st = (rc, st))
  ∧ (results_match_time cfg.since rc = false →
       (results_retrieve_all cfg subj (some tc) st).2.upstreamCalls
         = st.upstreamCalls + subj.result_queries.length)
  ∧ (∀ bound : String, bound ≠ "" → ∀ results : List ResultR,
       (results_match_time (some bound) results = true ↔
         ∀ r, r ∈ results → pyStrLt r.submit_time (until_of bound) = true))
  ∧ (∀ results : List ResultR, results_match_time none results = true) := by
  have ht : truthyOpt (some tc) = true := decide_eq_true htc
  have hemp : (!rc.isEmpty) = true := by
    cases rc with
    | nil => exact absurd rfl hne
    | cons a l => rfl
  refine ⟨?_, ?_, ?_, fun results => rfl⟩
  · intro hm
    exact rra_ext_hit cfg subj (some tc) st rc ht hck hext
      (by rw [hemp, hm]; rfl)
  · intro hm
    rw [rra_ext_stale cfg subj (some tc) st rc ht hck hext
      (by rw [hm, Bool.and_false])]
    exact fetch_and_store_calls cfg subj (some tc) _ st
  · intro bound hb results
    have htb : truthyOpt (some bound) = true := decide_eq_true hb
    rw [results_match_time, if_pos htb]
    exact List.all_eq_true

/-- Witness for C3: the stale entry `[resLate]` under a 2024 upper edge is
rejected and upstream re-queried; with no bound the same list is valid. -/
theorem staleness_validation_check :
    (results_retrieve_all cfgSince subjW (some "t") stStale).2.upstreamCalls
      = stStale.upstreamCalls + subjW.result_queries.length
    ∧ results_match_time cfgSince.since [resLate] = false
    ∧ results_match_time none [resLate] = true :=
  ⟨(staleness_validation cfgSince subjW "t" (by decide) stStale [resLate]
      rfl (by decide) (by decide)).2.1 (by decide),
   by decide,
   (staleness_validation cfgSince subjW "t" (by decide) stStale [resLate]
      rfl (by decide) (by decide)).2.2.2 [resLate]⟩

/-! ### C4: when the external cache is written -/

/-- C4 counterexample: a call without a testcase primes the in-process cache;
the following call with a testcase filter returns a non-empty, all-passing
result list, yet no external-cache entry is written (the in-process hit
returns before the write is reached), contradicting the claimed
"if and only if". -/
theorem external_cache_write_cex :
    ((results_retrieve_all cfgPass subjW none initState).2.externalWrites = 0)
    ∧ (truthyOpt (some "tc") = true
       ∧ (results_retrieve_all cfgPass subjW (some "tc")
            (results_retrieve_all cfgPass subjW none initState).2).1 ≠ []
       ∧ (results_retrieve_all cfgPass subjW (some "tc")
            (results_retrieve_all cfgPass subjW none initState).2).1.all
           (outcome_passed cfgPass.outcomes_passed) = true
       ∧ (results_retrieve_all cfgPass subjW (some "tc")
            (results_retrieve_all cfgPass subjW none initState).2).2.externalWrites
          = (results_retrieve_all cfgPass subjW none initState).2.externalWrites
       ∧ (results_retrieve_all cfgPass subjW (some "tc")
            (results_retrieve_all cfgPass subjW none initState).2).2.external
          = []) := by decide

/-- C4 (amended): an external-cache entry is written exactly by the calls
that fall through to the upstream fetch with a truthy testcase and an
all-passing merged result list.  In detail: a call with a falsy testcase
never writes; whenever a call changes the write counter it had a truthy
testcase, the returned sequence was all-passing, exactly one entry was
written, and that entry holds the returned sequence under the computed key;
and a call with a truthy testcase that misses both caches and fetches an
all-passing list does write. -/
theorem external_cache_write_iff {Q : Type} (cfg : RConfig Q)
    (subj : Subject Q) (tc : Option String) (st : RState) :
    (truthyOpt tc = false →
       (results_retrieve_all cfg subj tc st).2.externalWrites = st.externalWrites
       ∧ (results_retrieve_all cfg subj tc st).2.external = st.external)
  ∧ ((results_retrieve_all cfg subj tc st).2.externalWrites ≠ st.externalWrites →
       truthyOpt tc = true
       ∧ (results_retrieve_all cfg subj tc st).1.all
           (outcome_passed cfg.outcomes_passed) = true
       ∧ (results_retrieve_all cfg subj tc st).2.externalWrites
           = st.externalWrites + 1
       ∧ (results_retrieve_all cfg subj tc st).2.external
           = (external_key subj (tc.getD ""), (results_retrieve_all cfg subj tc st).1)
             :: st.external)
  ∧ (∀ tcs : String, tcs ≠ "" →
       cacheGet st.cache (subj.type, subj.identifier) = none →
       (∀ rc, cacheGet st.external (external_key subj tcs) = some rc →
          rc = [] ∨ results_match_time cfg.since rc = false) →
       (results_retrieve_all cfg subj (some tcs) st).1.all
           (outcome_passed cfg.outcomes_passed) = true →
       (results_retrieve_all cfg subj (some tcs) st).2.externalWrites
         = st.externalWrites + 1) := by
  refine ⟨?_, ?_, ?_⟩
  · intro hf
    rw [rra_falsy cfg subj tc st hf]
    exact ⟨fetch_and_store_writes_none cfg subj tc st,
           fetch_and_store_external_none cfg subj tc st⟩
  · intro hw
    cases htc : truthyOpt tc with
    | false =>
      rw [rra_falsy cfg subj tc st htc, fetch_and_store_writes_none] at hw
      exact absurd rfl hw
    | true =>
      cases h1 : cacheGet st.cache (subj.type, subj.identifier) with
      | some cached =>
        rw [rra_cache_hit cfg subj tc st cached htc h1] at hw
        exact absurd rfl hw
      | none =>
        have hfetch : ∀ E : results_retrieve_all cfg subj tc st
              = fetch_and_store cfg subj tc (some (external_key subj (tc.getD ""))) st,
            truthyOpt tc = true
            ∧ (results_retrieve_all cfg subj tc st).1.all
                (outcome_passed cfg.outcomes_passed) = true
            ∧ (results_retrieve_all cfg subj tc st).2.externalWrites
                = st.externalWrites + 1
            ∧ (results_retrieve_all cfg subj tc st).2.external
                = (external_key subj (tc.getD ""),
                   (results_retrieve_all cfg subj tc st).1) :: st.external := by
          intro E
          by_cases hp : (merged_results cfg subj tc).all
              (outcome_passed cfg.outcomes_passed) = true
          · refine ⟨htc, ?_, ?_, ?_⟩
            · rw [E, fetch_and_store_fst]
              exact hp
            · rw [E]
              exact fetch_and_store_writes_pos cfg subj tc _ st hp
            · rw [E, fetch_and_store_fst]
              exact fetch_and_store_external_pos cfg subj tc _ st hp
          · exfalso
            rw [E, fetch_and_store_writes_neg cfg subj tc _ st
              (Bool.eq_false_iff.mpr hp)] at hw
            exact hw rfl
        cases h2 : cacheGet st.external (external_key subj (tc.getD "")) with
        | some rc =>
          by_cases hv : (!rc.isEmpty && results_match_time cfg.since rc) = true
          · rw [rra_ext_hit cfg subj tc st rc htc h1 h2 hv] at hw
            exact absurd rfl hw
          · have r := hfetch (rra_ext_stale cfg subj tc st rc htc h1 h2
              (Bool.eq_false_iff.mpr hv))
            exact ⟨rfl, r.2.1, r.2.2.1, r.2.2.2⟩
        | none =>
          have r := hfetch (rra_ext_none cfg subj tc st htc h1 h2)
          exact ⟨rfl, r.2.1, r.2.2.1, r.2.2.2⟩
  · intro tcs hts h1 hmiss hp
    have ht : truthyOpt (some tcs) = true := decide_eq_true hts
    have hfetch : ∀ E : results_retrieve_all cfg subj (some tcs) st
          = fetch_and_store cfg subj (some tcs)
              (some (external_key subj tcs)) st,
        (results_retrieve_all cfg subj (some tcs) st).2.externalWrites
          = st.externalWrites + 1 := by
      intro E
      rw [E, fetch_and_store_fst] at hp
      rw [E]
      exact fetch_and_store_writes_pos cfg subj (some tcs) _ st hp
    cases h2 : cacheGet st.external (external_key subj tcs) with
    | some rc =>
      have hv : (!rc.isEmpty && results_match_time cfg.since rc) = false := by
        rcases hmiss rc h2 with h | h
        · subst h; rfl
        · rw [h, Bool.and_false]
      exact hfetch (rra_ext_stale cfg subj (some tcs) st rc ht h1 h2 hv)
    | none => exact hfetch (rra_ext_none cfg subj (some tcs) st ht h1 h2)

/-- Witness for C4: a single filtered call on a cold state over a passing
upstream writes exactly one entry; a call without a testcase writes none. -/
theorem external_cache_write_iff_check :
    (results_retrieve_all cfgPass subjW none initState).2.externalWrites
      = initState.externalWrites
    ∧ (results_retrieve_all cfgPass subjW (some "t") initState).2.externalWrites
      = initState.externalWrites + 1 :=
  ⟨((external_cache_write_iff cfgPass subjW none initState).1 rfl).1,
   (external_cache_write_iff cfgPass subjW (some "t") initState).2.2 "t"
     (by decide) rfl (fun rc h => by cases h) (by decide)⟩

/-! ### C5: idempotence of filtered retrieval -/

theorem rra_after_fetch {Q : Type} (cfg : RConfig Q) (subj : Subject Q)
    (tc : String) (htc : tc ≠ "") (st : RState)
    (h1 : cacheGet st.cache (subj.type, subj.identifier) = none)
    (h2d : ∀ rc, cacheGet st.external (external_key subj tc) = some rc →
        (!rc.isEmpty && results_match_time cfg.since rc) = false) :
    (results_retrieve_all cfg subj (some tc)
       (fetch_and_store cfg subj (some tc) (some (external_key subj tc)) st).2).1
      = merged_results cfg subj (some tc) := by
  have ht : truthyOpt (some tc) = true := decide_eq_true htc
  have hc2 : cacheGet (fetch_and_store cfg subj (some tc)
      (some (external_key subj tc)) st).2.cache (subj.type, subj.identifier)
      = none := by
    rw [fetch_and_store_cache_truthy cfg subj (some tc) _ st ht]
    exact h1
  by_cases hp : (merged_results cfg subj (some tc)).all
      (outcome_passed cfg.outcomes_passed) = true
  · have he2 : cacheGet (fetch_and_store cfg subj (some tc)
        (some (external_key subj tc)) st).2.external (external_key subj tc)
        = some (merged_results cfg subj (some tc)) := by
      rw [fetch_and_store_external_pos cfg subj (some tc) _ st hp]
      exact cacheGet_cons_self _ _ _
    by_cases hv : (!(merged_results cfg subj (some tc)).isEmpty
        && results_match_time cfg.since (merged_results cfg subj (some tc)))
        = true
    · rw [rra_ext_hit cfg subj (some tc) _ _ ht hc2 he2 hv]
    · rw [rra_ext_stale cfg subj (some tc) _ _ ht hc2 he2
        (Bool.eq_false_iff.mpr hv), fetch_and_store_fst]
  · have hp' := Bool.eq_false_iff.mpr hp
    have he2 : cacheGet (fetch_and_store cfg subj (some tc)
        (some (external_key subj tc)) st).2.external (external_key subj tc)
        = cacheGet st.external (external_key subj tc) := by
      rw [fetch_and_store_external_neg cfg subj (some tc) _ st hp']
    cases h2 : cacheGet st.external (external_key subj tc) with
    | some rc =>
      rw [rra_ext_stale cfg subj (some tc) _ rc ht hc2 (he2.trans h2)
        (h2d rc h2), fetch_and_store_fst]
    | none =>
      rw [rra_ext_none cfg subj (some tc) _ ht hc2 (he2.trans h2),
        fetch_and_store_fst]

/-- Calling `_retrieve_all` twice with the same truthy testcase and a
deterministic upstream yields the same result list. -/
theorem results_retrieve_all_stable {Q : Type} (cfg : RConfig Q)
    (subj : Subject Q) (tc : String) (htc : tc ≠ "") (st : RState) :
    (results_retrieve_all cfg subj (some tc)
        (results_retrieve_all cfg subj (some tc) st).2).1
      = (results_retrieve_all cfg subj (some tc) st).1 := by
  have ht : truthyOpt (some tc) = true := decide_eq_true htc
  cases h1 : cacheGet st.cache (subj.type, subj.identifier) with
  | some cached =>
    have E := rra_cache_hit cfg subj (some tc) st cached ht h1
    have E2 : (results_retrieve_all cfg subj (some tc) st).2 = st := by rw [E]
    rw [E2]
  | none =>
    cases h2 : cacheGet st.external (external_key subj tc) with
    | some rc =>
      by_cases hv : (!rc.isEmpty && results_match_time cfg.since rc) = true
      · have E := rra_ext_hit cfg subj (some tc) st rc ht h1 h2 hv
        have E2 : (results_retrieve_all cfg subj (some tc) st).2 = st := by
          rw [E]
        rw [E2]
      · have hv' := Bool.eq_false_iff.mpr hv
        have E := rra_ext_stale cfg subj (some tc) st rc ht h1 h2 hv'
        have E2 : (results_retrieve_all cfg subj (some tc) st).2
            = (fetch_and_store cfg subj (some tc)
                (some (external_key subj tc)) st).2 := by rw [E]; rfl
        have E1 : (results_retrieve_all cfg subj (some tc) st).1
            = merged_results cfg subj (some tc) := by
          rw [E, fetch_and_store_fst]
        rw [E2, E1]
        exact rra_after_fetch cfg subj tc htc st h1
          (fun rc' h' => by
            rw [h2] at h'
            injection h' with hh
            subst hh
            exact hv')
    | none =>
      have E := rra_ext_none cfg subj (some tc) st ht h1 h2
      have E2 : (results_retrieve_all cfg subj (some tc) st).2
          = (fetch_and_store cfg subj (some tc)
              (some (external_key subj tc)) st).2 := by rw [E]; rfl
      have E1 : (results_retrieve_all cfg subj (some tc) st).1
          = merged_results cfg subj (some tc) := by
        rw [E, fetch_and_store_fst]
      rw [E2, E1]
      exact rra_after_fetch cfg subj tc htc st h1
        (fun rc' h' => by rw [h2] at h'; cases h')

/-- When the first filtered call produced a non-empty, all-passing,
time-valid result list, the second call does not issue any upstream
request. -/
theorem results_retrieve_all_no_requery {Q : Type} (cfg : RConfig Q)
    (subj : Subject Q) (tc : String) (htc : tc ≠ "") (st : RState)
    (hne : (results_retrieve_all cfg subj (some tc) st).1 ≠ [])
    (hp : (results_retrieve_all cfg subj (some tc) st).1.all
        (outcome_passed cfg.outcomes_passed) = true)
    (hm : results_match_time cfg.since
        (results_retrieve_all cfg subj (some tc) st).1 = true) :
    (results_retrieve_all cfg subj (some tc)
        (results_retrieve_all cfg subj (some tc) st).2).2.upstreamCalls
      = (results_retrieve_all cfg subj (some tc) st).2.upstreamCalls := by
  have ht : truthyOpt (some tc) = true := decide_eq_true htc
  have hfetch : results_retrieve_all cfg subj (some tc) st
        = fetch_and_store cfg subj (some tc)
            (some (external_key subj tc)) st →
      cacheGet st.cache (subj.type, subj.identifier) = none →
      (results_retrieve_all cfg subj (some tc)
          (results_retrieve_all cfg subj (some tc) st).2).2.upstreamCalls
        = (results_retrieve_all cfg subj (some tc) st).2.upstreamCalls := by
    intro E h1
    have E2 : (results_retrieve_all cfg subj (some tc) st).2
        = (fetch_and_store cfg subj (some tc)
            (some (external_key subj tc)) st).2 := by rw [E]
    have E1 : (results_retrieve_all cfg subj (some tc) st).1
        = merged_results cfg subj (some tc) := by
      rw [E, fetch_and_store_fst]
    rw [E1] at hne hp hm
    have hemp : (!(merged_results cfg subj (some tc)).isEmpty) = true := by
      cases hm2 : merged_results cfg subj (some tc) with
      | nil => exact absurd hm2 hne
      | cons a l => rfl
    have hc2 : cacheGet (fetch_and_store cfg subj (some tc)
        (some (external_key subj tc)) st).2.cache (subj.type, subj.identifier)
        = none := by
      rw [fetch_and_store_cache_truthy cfg subj (some tc) _ st ht]
      exact h1
    have he2 : cacheGet (fetch_and_store cfg subj (some tc)
        (some (external_key subj tc)) st).2.external (external_key subj tc)
        = some (merged_results cfg subj (some tc)) := by
      rw [fetch_and_store_external_pos cfg subj (some tc) _ st hp]
      exact cacheGet_cons_self _ _ _
    have hv2 : (!(merged_results cfg subj (some tc)).isEmpty
        && results_match_time cfg.since (merged_results cfg subj (some tc)))
        = true := by rw [hemp, hm]; rfl
    have E' := rra_ext_hit cfg subj (some tc) _ _ ht hc2 he2 hv2
    rw [E2, E']
  cases h1 : cacheGet st.cache (subj.type, subj.identifier) with
  | some cached =>
    have E := rra_cache_hit cfg subj (some tc) st cached ht h1
    have E2 : (results_retrieve_all cfg subj (some tc) st).2 = st := by rw [E]
    rw [E2, E2]
  | none =>
    cases h2 : cacheGet st.external (external_key subj tc) with
    | some rc =>
      by_cases hv : (!rc.isEmpty && results_match_time cfg.since rc) = true
      · have E := rra_ext_hit cfg subj (some tc) st rc ht h1 h2 hv
        have E2 : (results_retrieve_all cfg subj (some tc) st).2 = st := by
          rw [E]
        rw [E2, E2]
      · exact hfetch (rra_ext_stale cfg subj (some tc) st rc ht h1 h2
          (Bool.eq_false_iff.mpr hv)) h1
    | none => exact hfetch (rra_ext_none cfg subj (some tc) st ht h1 h2) h1

/-- C5 counterexample: with an upstream returning the empty result list, the
first filtered call stores `[]` into the external cache (one write, one
upstream request), yet the second call treats the cached empty list as a
miss (Python `if results:` is false for `[]`) and issues the upstream
request again.  The outputs still agree, but the "no second upstream
request" part of the claim fails for the empty result set. -/
theorem retrieve_idempotent_cex :
    cacheGet (results_retrieve cfgEmpty subjW (some "t") initState).2.external
        (external_key subjW "t") = some []
    ∧ (results_retrieve cfgEmpty subjW (some "t") initState).2.externalWrites = 1
    ∧ (results_retrieve cfgEmpty subjW (some "t") initState).2.upstreamCalls = 1
    ∧ (results_retrieve cfgEmpty subjW (some "t")
        (results_retrieve cfgEmpty subjW (some "t") initState).2).2.upstreamCalls
      = 2
    ∧ (results_retrieve cfgEmpty subjW (some "t")
        (results_retrieve cfgEmpty subjW (some "t") initState).2).1
      = (results_retrieve cfgEmpty subjW (some "t") initState).1 := by decide

/-- C5 (amended): with a deterministic upstream (no upstream state change)
and a truthy testcase, calling `retrieve` twice yields identical output for
every result set; and whenever the first call's result list is non-empty,
all-passing and time-valid — the condition under which the first call
populates the passing-results external cache with a usable entry — the
second call issues no upstream request.  (For the empty result set the
output is still identical, but the entry written for it is ignored on read
and upstream is queried again.) -/
theorem retrieve_idempotent {Q : Type} (cfg : RConfig Q) (subj : Subject Q)
    (tc : String) (htc : tc ≠ "") (st : RState) :
    ((results_retrieve cfg subj (some tc)
        ((results_retrieve cfg subj (some tc) st).2)).1
      = (results_retrieve cfg subj (some tc) st).1)
  ∧ ((results_retrieve_all cfg subj (some tc) st).1 ≠ [] →
     (results_retrieve_all cfg subj (some tc) st).1.all
         (outcome_passed cfg.outcomes_passed) = true →
     results_match_time cfg.since (results_retrieve_all cfg subj (some tc) st).1
       = true →
     (results_retrieve_all cfg subj (some tc)
         ((results_retrieve_all cfg subj (some tc) st).2)).2.upstreamCalls
       = (results_retrieve_all cfg subj (some tc) st).2.upstreamCalls) := by
  constructor
  · show base_retrieve cfg.ignore_ids (fun x => x.id)
        (results_retrieve_all cfg subj (some tc)
          (results_retrieve_all cfg subj (some tc) st).2).1
      = base_retrieve cfg.ignore_ids (fun x => x.id)
          (results_retrieve_all cfg subj (some tc) st).1
    rw [results_retrieve_all_stable cfg subj tc htc st]
  · exact results_retrieve_all_no_requery cfg subj tc htc st

/-- Witness for C5 (amended): over the passing upstream, the two calls agree
and the second call issues no upstream request. -/
theorem retrieve_idempotent_check :
    ((results_retrieve cfgPass subjW (some "t")
        ((results_retrieve cfgPass subjW (some "t") initState).2)).1
      = (results_retrieve cfgPass subjW (some "t") initState).1)
    ∧ (results_retrieve_all cfgPass subjW (some "t")
        ((results_retrieve_all cfgPass subjW (some "t") initState).2)).2.upstreamCalls
      = (results_retrieve_all cfgPass subjW (some "t") initState).2.upstreamCalls :=
  ⟨(retrieve_idempotent cfgPass subjW "t" (by decide) initState).1,
   (retrieve_idempotent cfgPass subjW "t" (by decide) initState).2
     (by decide) (by decide) (by decide)⟩
